import Mathlib

/-!
Verification of the viamrtsp manual test script (`script.py`).

The script builds declarative device-configuration documents (`config_h2645`,
`config_onvif`, `config_video_store`), pushes them to a cloud control plane,
waits for resources to appear on the device (`wait_for_resource`,
`safe_refresh_machine`), exercises a video-store save command
(`test_video_store_preset`), and tears down in `main`.

The embedding below translates those functions into Lean.  Python dictionaries
become typed structures mirroring the literal dict shapes; the process
environment (`os.getenv` results) becomes an explicit `Env` record of
`Option String` values; exceptions become `Except Err`; the unbounded retry
loop becomes a fuel-indexed recursion that also counts its sleeps and
refreshes; `random.randint` becomes an explicit draw constrained by its
inclusive-range contract.
-/

/-- JSON-like attribute values appearing in the configuration dictionaries.
`jrat n d` stands for the decimal literal n/d (the script writes `0.1`). -/
inductive JVal where
  | jstr : String → JVal
  | jbool : Bool → JVal
  | jint : Int → JVal
  | jrat : Int → Int → JVal
  | jarr : List JVal → JVal
  | jobj : List (String × JVal) → JVal

/-- A component descriptor, mirroring the component dict literals in the
script.  `nspace` stands for the `"namespace"` key (a Lean keyword); keys
absent from a given literal are `none`. -/
structure Component where
  name : String
  nspace : Option String
  api : Option String
  type : Option String
  model : String
  attributes : List (String × JVal)
  depends_on : Option (List String)

/-- A service descriptor, mirroring the service dict literals. -/
structure ServiceEntry where
  name : String
  api : String
  model : String
  attributes : List (String × JVal)

/-- A module registration descriptor. -/
structure ModuleEntry where
  type : String
  name : String
  module_id : String
  version : String

/-- A configuration document: the top-level dict returned by the config
builders.  `config_h2645` has no `"services"` key, hence the `Option`. -/
structure Doc where
  components : List Component
  services : Option (List ServiceEntry)
  modules : List ModuleEntry

/-- Errors the script can raise.  `valueError` carries the message of a
Python `ValueError`; `rpcError` stands for an error raised by an external
RPC call; all constructors model `Exception` subclasses. -/
inductive Err where
  | valueError : String → Err
  | rpcError : Nat → Err
deriving DecidableEq

/-- The process environment after `load_dotenv()`: each variable is
`os.getenv(...)`, i.e. `none` when unset. -/
structure Env where
  API_KEY : Option String
  API_KEY_ID : Option String
  PART_ID : Option String
  MACHINE_ADDRESS : Option String
  H264_RTSP_ADDR : Option String
  H265_RTSP_ADDR : Option String

/-- The dynamic value passed as `stream_type`.  The script's annotation is
`Literal["h264", "h265"]`, but Python does not enforce it: `config_onvif`
and `config_video_store` pass the integer `2`. -/
inductive StreamArg where
  | pystr : String → StreamArg
  | pyint : Int → StreamArg
deriving DecidableEq

/-- Python `str()` / f-string rendering of a stream-type argument. -/
def streamArgStr : StreamArg → String
  | .pystr s => s
  | .pyint n => toString n

/-- `get_rtsp_address`: looks `stream_type` up in the dict
`{"h264": H264_RTSP_ADDR, "h265": H265_RTSP_ADDR}` with `.get` (missing key
gives `None`), then raises `ValueError` when the result is falsy
(`None` or the empty string). -/
def get_rtsp_address (env : Env) (stream_type : StreamArg) : Except Err String :=
  let rtsp_addr : Option String :=
    match stream_type with
    | .pystr "h264" => env.H264_RTSP_ADDR
    | .pystr "h265" => env.H265_RTSP_ADDR
    | _ => none
  match rtsp_addr with
  | none => .error (.valueError ("Unsupported stream type: " ++ streamArgStr stream_type))
  | some a =>
    if a = "" then
      .error (.valueError ("Unsupported stream type: " ++ streamArgStr stream_type))
    else
      .ok a

/-- The module list shared by all three builders. -/
def viamrtspModule : ModuleEntry :=
  { type := "registry", name := "viam_viamrtsp", module_id := "viam:viamrtsp",
    version := "latest-with-prerelease" }

/-- `config_h2645(rtp_passthrough, stream_type)`: the single-camera document;
the `ValueError` from `get_rtsp_address` propagates. -/
def config_h2645 (env : Env) (rtp_passthrough : Bool) (stream_type : StreamArg) :
    Except Err Doc := do
  let addr ← get_rtsp_address env stream_type
  pure
    { components :=
        [{ name := "rtsp-cam-1", nspace := some "rdk", api := none,
           type := some "camera", model := "viam:viamrtsp:rtsp",
           attributes :=
             [("rtp_passthrough", .jbool rtp_passthrough),
              ("rtsp_address", .jstr addr)],
           depends_on := none }],
      services := none,
      modules := [viamrtspModule] }

/-- `config_onvif()`: the discovery-service document.  Note the source calls
`get_rtsp_address(2)` with the integer `2`. -/
def config_onvif (env : Env) : Except Err Doc := do
  let addr ← get_rtsp_address env (.pyint 2)
  pure
    { components :=
        [{ name := "rtsp-cam-1", nspace := some "rdk", api := none,
           type := some "camera", model := "viam:viamrtsp:rtsp",
           attributes :=
             [("rtp_passthrough", .jbool true),
              ("rtsp_address", .jstr addr)],
           depends_on := none }],
      services :=
        some [{ name := "onvif-discovery-1", api := "rdk:service:discovery",
                model := "viam:viamrtsp:onvif", attributes := [] }],
      modules := [viamrtspModule] }

/-- `config_video_store(preset)`: the storage document.  The source again
calls `get_rtsp_address(2)` with the integer `2`. -/
def config_video_store (env : Env) (preset : String) : Except Err Doc := do
  let addr ← get_rtsp_address env (.pyint 2)
  pure
    { components :=
        [{ name := "rtsp-cam-1", nspace := some "rdk", api := none,
           type := some "camera", model := "viam:viamrtsp:rtsp",
           attributes :=
             [("rtsp_address", .jstr addr),
              ("rtp_passthrough", .jbool true)],
           depends_on := none },
         { name := "video-store-1", nspace := none,
           api := some "rdk:component:camera", type := none,
           model := "viam:video:storage",
           attributes :=
             [("sync", .jstr "data-manager-1"),
              ("storage", .jobj [("size_gb", .jint 1)]),
              ("video", .jobj [("preset", .jstr preset)]),
              ("camera", .jstr "rtsp-cam-1")],
           depends_on := some ["data-manager-1"] }],
      services :=
        some [{ name := "onvif-discovery-1", api := "rdk:service:discovery",
                model := "viam:viamrtsp:onvif", attributes := [] },
              { name := "data-manager-1", api := "rdk:service:data_manager",
                model := "rdk:builtin:builtin",
                attributes :=
                  [("tags", .jarr []),
                   ("additional_sync_paths", .jarr []),
                   ("sync_interval_mins", .jrat 1 10),
                   ("capture_dir", .jstr "")] }],
      modules := [viamrtspModule,
                  { type := "registry", name := "viam_video-store",
                    module_id := "viam:video-store", version := "latest" }] }

/-- A Python value returned by a resource-locator closure, together with its
truthiness (`while not resource` tests Python truthiness). -/
structure PyVal where
  truthy : Bool
  payload : Nat
deriving DecidableEq

/-- The outcome of one invocation of the `resource_getter` closure in
`wait_for_resource`: a returned value, a raised `ResourceNotFoundError`
(with its message), or any other raised error. -/
inductive LookupResult where
  | ret : PyVal → LookupResult
  | raiseNotFound : String → LookupResult
  | raiseOther : Err → LookupResult

/-- `safe_refresh_machine`: runs `machine.refresh()` (whose outcome is the
argument), catches any `Exception`, logs it, and returns normally.  The
result pairs the (never-failing) return with the lines printed. -/
def safe_refresh_machine (refresh_result : Except Err Unit) :
    Except Err Unit × List String :=
  match refresh_result with
  | .ok _ => (.ok (), [])
  | .error _ => (.ok (), ["Got error while refreshing machine. Continuing anyway."])

/-- The trace of one terminating run of the `wait_for_resource` loop: the
returned value (or the propagated non-not-found error), the number of
1-second sleeps performed, and the number of `safe_refresh_machine` calls. -/
structure WaitOut where
  result : Except Err PyVal
  sleeps : Nat
  refreshes : Nat

/-- `wait_for_resource`: `resource = None; while not resource: try: resource
= resource_getter() except ResourceNotFoundError: sleep(1); refresh`.  The
closure's successive invocation outcomes are the stream `getter 0, getter 1,
…`; `fuel` bounds the number of iterations modelled (`none` = the loop has
not terminated within `fuel` iterations).  A falsy returned value re-enters
the loop with no sleep and no refresh; a `ResourceNotFoundError` sleeps once
and refreshes once; any other error propagates. -/
def wait_for_resource (getter : Nat → LookupResult) : Nat → Option WaitOut
  | 0 => none
  | fuel + 1 =>
    match getter 0 with
    | .ret v =>
      if v.truthy then
        some { result := .ok v, sleeps := 0, refreshes := 0 }
      else
        wait_for_resource (fun j => getter (j + 1)) fuel
    | .raiseNotFound _ =>
      (wait_for_resource (fun j => getter (j + 1)) fuel).map
        (fun t => { result := t.result, sleeps := t.sleeps + 1,
                    refreshes := t.refreshes + 1 })
    | .raiseOther e =>
      some { result := .error e, sleeps := 0, refreshes := 0 }

/-- The save command dict built in `test_video_store_preset`.  `fromTime` and
`toTime` stand for the `"from"` and `"to"` keys (Lean keywords); timestamps
are whole seconds, which is exactly the resolution of the
`"%Y-%m-%d_%H-%M-%S"` format the script uses. -/
structure SaveCmd where
  command : String
  fromTime : Int
  toTime : Int
  metadata : String
  async : Bool
deriving DecidableEq

/-- The save command of `test_video_store_preset`: `now` is the current time
in whole seconds, `random_seconds` the value returned by `random.randint`;
`from_time = now - timedelta(seconds=random_seconds)`. -/
def save_window_cmd (now : Int) (random_seconds : Nat) : SaveCmd :=
  { command := "save", fromTime := now - (random_seconds : Int), toTime := now,
    metadata := "metadata", async := true }

/-- The contract of `random.randint(lo, hi)`: the draw `r` satisfies
`lo ≤ r ≤ hi`, both bounds inclusive. -/
def randint_possible (lo hi r : Nat) : Prop := lo ≤ r ∧ r ≤ hi

instance (lo hi r : Nat) : Decidable (randint_possible lo hi r) := by
  unfold randint_possible; infer_instance

/-- The bounds passed to `random.randint` in `test_video_store_preset`:
`randint(2, min(15, sleep_time - 1))`. -/
def save_window_hi (sleep_time : Nat) : Nat := min 15 (sleep_time - 1)

/-- `config_h2645` as a transformer of the process-wide state it reads (the
environment loaded once at startup): the source assigns to no global, so the
state is returned unchanged. -/
def config_h2645S (env : Env) (rtp_passthrough : Bool) (stream_type : StreamArg) :
    Except Err Doc × Env :=
  (config_h2645 env rtp_passthrough stream_type, env)

/-- `config_onvif` as a state transformer; see `config_h2645S`. -/
def config_onvifS (env : Env) : Except Err Doc × Env :=
  (config_onvif env, env)

/-- `config_video_store` as a state transformer; see `config_h2645S`. -/
def config_video_storeS (env : Env) (preset : String) : Except Err Doc × Env :=
  (config_video_store env preset, env)

/-- Session bookkeeping for `main`: which of the two sessions (control-plane
`viam_client`, device `machine`) were opened, and whether `close()` was
called on each. -/
structure MainState where
  opened_viam : Bool
  closed_viam : Bool
  opened_machine : Bool
  closed_machine : Bool

/-- The initial session state: nothing opened, nothing closed. -/
def initState : MainState :=
  { opened_viam := false, closed_viam := false,
    opened_machine := false, closed_machine := false }

/-- Oracle for the external collaborators `main` calls: each field is the
outcome of the corresponding remote call (indexed by call order where a call
is made several times).  `rand i` is the value `random.randint` returns in
the i-th video-store test; `now` is the wall-clock time there. -/
structure ExtCalls where
  connect_result : Except Err Unit
  get_robot_part_result : Except Err String
  update_robot_part_result : Nat → Except Err Unit
  connect_machine_result : Except Err Unit
  refresh_result : Nat → Except Err Unit
  onvif_lookup : Nat → LookupResult
  discover_result : Except Err Unit
  vs_lookup : Nat → Nat → LookupResult
  do_command_result : Nat → Except Err Unit
  now : Int
  rand : Nat → Nat

/-- Sequencing for `main`'s steps: `none` is a run that never terminates
(inside an unbounded wait loop); an `Except.error` short-circuits the rest,
exactly as an uncaught Python exception aborts `main`. -/
def mstep {α β : Type} (x : Option (Except Err α × MainState))
    (f : α → MainState → Option (Except Err β × MainState)) :
    Option (Except Err β × MainState) :=
  match x with
  | none => none
  | some (.error e, st) => some (.error e, st)
  | some (.ok a, st) => f a st

/-- Lifts a single call outcome into a `main` step, leaving the session
state unchanged. -/
def mlift {α : Type} (x : Except Err α) (st : MainState) :
    Option (Except Err α × MainState) :=
  some (x, st)

/-- `test_video_store_preset(cloud, part_id, name, machine, preset)`:
`update_and_confirm` with `config_video_store(preset)` (the document is
built first — a `ValueError` there propagates), `safe_refresh_machine`,
`wait_for_resource` for `"video-store-1"`, a warm-up sleep, the save
command, and `do_command`.  `run` is 0 for the `"medium"` test and 1 for
the `"ultrafast"` test (used to index the oracle). -/
def test_video_store_preset (env : Env) (ext : ExtCalls) (run : Nat) (preset : String)
    (fuel : Nat) (st : MainState) (sleep_time : Nat := 30) :
    Option (Except Err PyVal × MainState) :=
  mstep (mlift (config_video_store env preset) st) fun _cfg st =>
  mstep (mlift (ext.update_robot_part_result (4 + run)) st) fun _ st =>
  mstep (mlift (safe_refresh_machine (ext.refresh_result run)).1 st) fun _ st =>
  match wait_for_resource (ext.vs_lookup run) fuel with
  | none => none
  | some t =>
    match t.result with
    | .error e => some (.error e, st)
    | .ok vid_store =>
      let _ := sleep_time
      let _cmd := save_window_cmd ext.now (ext.rand run)
      mstep (mlift (ext.do_command_result run) st) fun _ st =>
      some (.ok vid_store, st)

/-- `mainRun` embeds `main()` (the name `main` is reserved in Lean): connect, fetch the part, push the three codec configs, push
the ONVIF config, connect to the machine, wait for the discovery service,
discover, run the two video-store tests, then close both sessions.  There
is no `try`/`finally`: the two `close()` calls sit only at the end of the
straight-line body. -/
def mainRun (env : Env) (ext : ExtCalls) (fuel : Nat) :
    Option (Except Err Unit × MainState) :=
  mstep (mlift ext.connect_result initState) fun _ st0 =>
  let st := { st0 with opened_viam := true }
  mstep (mlift ext.get_robot_part_result st) fun _part_name st =>
  mstep (mlift (config_h2645 env true (.pystr "h264")) st) fun _ st =>
  mstep (mlift (ext.update_robot_part_result 0) st) fun _ st =>
  mstep (mlift (config_h2645 env false (.pystr "h264")) st) fun _ st =>
  mstep (mlift (ext.update_robot_part_result 1) st) fun _ st =>
  mstep (mlift (config_h2645 env true (.pystr "h265")) st) fun _ st =>
  mstep (mlift (ext.update_robot_part_result 2) st) fun _ st =>
  mstep (mlift (config_onvif env) st) fun _ st =>
  mstep (mlift (ext.update_robot_part_result 3) st) fun _ st =>
  mstep (mlift ext.connect_machine_result st) fun _ st1 =>
  let st := { st1 with opened_machine := true }
  match wait_for_resource ext.onvif_lookup fuel with
  | none => none
  | some t =>
    match t.result with
    | .error e => some (.error e, st)
    | .ok _onvif_discovery =>
      mstep (mlift ext.discover_result st) fun _ st =>
      mstep (test_video_store_preset env ext 0 "medium" fuel st) fun _vid_store st =>
      mstep (test_video_store_preset env ext 1 "ultrafast" fuel st) fun _ st =>
      some (.ok (), { st with closed_viam := true, closed_machine := true })

/-- A fully populated environment used to evaluate the definitions at
concrete inputs. -/
def envW : Env :=
  { API_KEY := some "key", API_KEY_ID := some "key-id", PART_ID := some "part",
    MACHINE_ADDRESS := some "machine.example:8080",
    H264_RTSP_ADDR := some "rtsp://cam.example/h264",
    H265_RTSP_ADDR := some "rtsp://cam.example/h265" }

/-- Claim C4: `config_onvif` never returns a document: it calls
`get_rtsp_address(2)` with the integer `2`, the dict lookup misses
(its keys are the strings `"h264"` and `"h265"`), and the resulting `None`
triggers `ValueError("Unsupported stream type: 2")` — for every
environment, before the discovery-service document is built. -/
theorem config_onvif_always_raises (env : Env) :
    config_onvif env = .error (.valueError "Unsupported stream type: 2") := rfl

/-- Claim C3: `config_video_store` never returns a document for any preset
(including the empty string): like `config_onvif` it calls
`get_rtsp_address(2)`, so it raises
`ValueError("Unsupported stream type: 2")` for every environment and every
preset, before the storage document is built. -/
theorem config_video_store_always_raises (env : Env) (preset : String) :
    config_video_store env preset = .error (.valueError "Unsupported stream type: 2") := rfl

/-- Claim C7: `safe_refresh_machine` wraps the refresh in
`try/except Exception`, so whatever the refresh outcome — success or any
error — it returns normally; no error ever propagates to the caller. -/
theorem safe_refresh_machine_never_raises (r : Except Err Unit) :
    (safe_refresh_machine r).1 = Except.ok () := by
  cases r <;> rfl

/-- Claim C8: each config builder, read as a transformer of the
process-wide state it consults, is deterministic and mutation-free: a
second call with identical arguments, run in the state left by the first,
returns a structurally identical outcome, and the state after a call is
exactly the state before it. -/
theorem config_builders_deterministic (env : Env) (p : Bool) (s : StreamArg)
    (preset : String) :
    (config_h2645S env p s).1 = (config_h2645S (config_h2645S env p s).2 p s).1 ∧
    (config_h2645S env p s).2 = env ∧
    (config_video_storeS env preset).1 =
      (config_video_storeS (config_video_storeS env preset).2 preset).1 ∧
    (config_video_storeS env preset).2 = env ∧
    (config_onvifS env).1 = (config_onvifS (config_onvifS env).2).1 ∧
    (config_onvifS env).2 = env :=
  ⟨rfl, rfl, rfl, rfl, rfl, rfl⟩

/-- Claim C5 counterexample: with the default warm-up of 30 seconds the
draw is `randint(2, min(15, 30-1)) = randint(2, 15)`, and `random.randint`
includes both endpoints, so a save width of 15 seconds is a possible
outcome — contradicting the claimed bound `W ≤ 14`.  The command built for
that draw indeed has width 15. -/
theorem save_window_width_15_possible :
    randint_possible 2 (save_window_hi 30) 15 ∧
    ¬ ((15 : Nat) ≤ 14) ∧
    (save_window_cmd 1000 15).toTime - (save_window_cmd 1000 15).fromTime = 15 := by
  refine ⟨by decide, by decide, by decide⟩

/-- Claim C5 (amended): the save width W is drawn by
`randint(2, min(15, warmup-1))` with both bounds inclusive, so with the
default warm-up of 30 seconds every produced width satisfies 2 ≤ W ≤ 15;
the issued command has `command = "save"`, `async = true`, and
`to - from` equal to exactly W seconds. -/
theorem save_window_cmd_spec (now : Int) (r : Nat)
    (h : randint_possible 2 (save_window_hi 30) r) :
    (2 ≤ r ∧ r ≤ 15) ∧
    (save_window_cmd now r).command = "save" ∧
    (save_window_cmd now r).async = true ∧
    (save_window_cmd now r).toTime - (save_window_cmd now r).fromTime = (r : Int) := by
  obtain ⟨h1, h2⟩ := h
  refine ⟨⟨h1, ?_⟩, rfl, rfl, ?_⟩
  · simpa [save_window_hi] using h2
  · simp [save_window_cmd]

/-- Concrete instance of `save_window_cmd_spec` at a draw of 7 seconds
ending at time 1000. -/
theorem save_window_cmd_spec_witness :
    (2 ≤ (7 : Nat) ∧ (7 : Nat) ≤ 15) ∧
    (save_window_cmd 1000 7).command = "save" ∧
    (save_window_cmd 1000 7).async = true ∧
    (save_window_cmd 1000 7).toTime - (save_window_cmd 1000 7).fromTime = ((7 : Nat) : Int) :=
  save_window_cmd_spec 1000 7 (by decide)

/-- Claim C1: for each supported identifier (`"h264"`, `"h265"`) whose
address is configured (set and non-empty), `config_h2645` returns a
document with exactly one component, named `"rtsp-cam-1"`, whose attributes
carry `rtp_passthrough` equal to the passthrough argument and
`rtsp_address` exactly equal to that configured address; for any other
stream-type argument it raises a `ValueError` and produces no document. -/
theorem config_h2645_spec (env : Env) (p : Bool) :
    (∀ a : String, env.H264_RTSP_ADDR = some a → a ≠ "" →
      ∃ c : Component,
        config_h2645 env p (.pystr "h264") =
          .ok { components := [c], services := none, modules := [viamrtspModule] } ∧
        c.name = "rtsp-cam-1" ∧
        c.attributes = [("rtp_passthrough", .jbool p), ("rtsp_address", .jstr a)]) ∧
    (∀ a : String, env.H265_RTSP_ADDR = some a → a ≠ "" →
      ∃ c : Component,
        config_h2645 env p (.pystr "h265") =
          .ok { components := [c], services := none, modules := [viamrtspModule] } ∧
        c.name = "rtsp-cam-1" ∧
        c.attributes = [("rtp_passthrough", .jbool p), ("rtsp_address", .jstr a)]) ∧
    (∀ t : StreamArg, t ≠ .pystr "h264" → t ≠ .pystr "h265" →
      ∃ m : String, config_h2645 env p t = .error (.valueError m)) := by
  refine ⟨?_, ?_, ?_⟩
  · intro a ha hne
    refine ⟨{ name := "rtsp-cam-1", nspace := some "rdk", api := none,
              type := some "camera", model := "viam:viamrtsp:rtsp",
              attributes := [("rtp_passthrough", .jbool p), ("rtsp_address", .jstr a)],
              depends_on := none }, ?_, rfl, rfl⟩
    simp [config_h2645, get_rtsp_address, ha, hne]
  · intro a ha hne
    refine ⟨{ name := "rtsp-cam-1", nspace := some "rdk", api := none,
              type := some "camera", model := "viam:viamrtsp:rtsp",
              attributes := [("rtp_passthrough", .jbool p), ("rtsp_address", .jstr a)],
              depends_on := none }, ?_, rfl, rfl⟩
    simp [config_h2645, get_rtsp_address, ha, hne]
  · intro t h1 h2
    refine ⟨"Unsupported stream type: " ++ streamArgStr t, ?_⟩
    unfold config_h2645 get_rtsp_address
    rcases t with s | n
    · have hs1 : s ≠ "h264" := fun h => h1 (by rw [h])
      have hs2 : s ≠ "h265" := fun h => h2 (by rw [h])
      simp [hs1, hs2]
    · rfl

/-- Concrete instance of `config_h2645_spec` in the fully populated
environment: the h264 and h265 documents, and the failure on the
unsupported argument `2`. -/
theorem config_h2645_spec_witness :
    (∃ c : Component,
        config_h2645 envW true (.pystr "h264") =
          .ok { components := [c], services := none, modules := [viamrtspModule] } ∧
        c.name = "rtsp-cam-1" ∧
        c.attributes = [("rtp_passthrough", .jbool true),
                        ("rtsp_address", .jstr "rtsp://cam.example/h264")]) ∧
    (∃ c : Component,
        config_h2645 envW true (.pystr "h265") =
          .ok { components := [c], services := none, modules := [viamrtspModule] } ∧
        c.name = "rtsp-cam-1" ∧
        c.attributes = [("rtp_passthrough", .jbool true),
                        ("rtsp_address", .jstr "rtsp://cam.example/h265")]) ∧
    (∃ m : String, config_h2645 envW true (.pyint 2) = .error (.valueError m)) :=
  ⟨(config_h2645_spec envW true).1 "rtsp://cam.example/h264" rfl (by decide),
   (config_h2645_spec envW true).2.1 "rtsp://cam.example/h265" rfl (by decide),
   (config_h2645_spec envW true).2.2 (.pyint 2) (by decide) (by decide)⟩

/-- Claim C9: for a recognized identifier whose configured address is unset
(`None`) or the empty string, `get_rtsp_address` raises the same
`ValueError` as for an unrecognized identifier (the `if not rtsp_addr`
truthiness test conflates the two); consequently, in such an environment
every config builder fails — `config_h2645` for both supported identifiers,
and `config_onvif` / `config_video_store` unconditionally. -/
theorem get_rtsp_address_unset_spec (env : Env)
    (h264 : env.H264_RTSP_ADDR = none ∨ env.H264_RTSP_ADDR = some "")
    (h265 : env.H265_RTSP_ADDR = none ∨ env.H265_RTSP_ADDR = some "") :
    get_rtsp_address env (.pystr "h264") =
      .error (.valueError "Unsupported stream type: h264") ∧
    get_rtsp_address env (.pystr "h265") =
      .error (.valueError "Unsupported stream type: h265") ∧
    (∀ p : Bool, config_h2645 env p (.pystr "h264") =
      .error (.valueError "Unsupported stream type: h264")) ∧
    (∀ p : Bool, config_h2645 env p (.pystr "h265") =
      .error (.valueError "Unsupported stream type: h265")) ∧
    config_onvif env = .error (.valueError "Unsupported stream type: 2") ∧
    (∀ preset : String, config_video_store env preset =
      .error (.valueError "Unsupported stream type: 2")) := by
  have g264 : get_rtsp_address env (.pystr "h264") =
      .error (.valueError "Unsupported stream type: h264") := by
    rcases h264 with h | h <;> simp [get_rtsp_address, h] <;> rfl
  have g265 : get_rtsp_address env (.pystr "h265") =
      .error (.valueError "Unsupported stream type: h265") := by
    rcases h265 with h | h <;> simp [get_rtsp_address, h] <;> rfl
  refine ⟨g264, g265, ?_, ?_, rfl, fun _ => rfl⟩
  · intro p
    simp [config_h2645, g264]
  · intro p
    simp [config_h2645, g265]

/-- An environment with no RTSP addresses configured. -/
def envEmpty : Env :=
  { API_KEY := some "key", API_KEY_ID := some "key-id", PART_ID := some "part",
    MACHINE_ADDRESS := some "machine.example:8080",
    H264_RTSP_ADDR := none, H265_RTSP_ADDR := some "" }

/-- Concrete instance of `get_rtsp_address_unset_spec` in the environment
with the h264 address unset and the h265 address empty. -/
theorem get_rtsp_address_unset_spec_witness :
    get_rtsp_address envEmpty (.pystr "h264") =
      .error (.valueError "Unsupported stream type: h264") ∧
    get_rtsp_address envEmpty (.pystr "h265") =
      .error (.valueError "Unsupported stream type: h265") ∧
    config_h2645 envEmpty true (.pystr "h264") =
      .error (.valueError "Unsupported stream type: h264") ∧
    config_h2645 envEmpty false (.pystr "h265") =
      .error (.valueError "Unsupported stream type: h265") ∧
    config_onvif envEmpty = .error (.valueError "Unsupported stream type: 2") ∧
    config_video_store envEmpty "medium" =
      .error (.valueError "Unsupported stream type: 2") := by
  obtain ⟨a, b, c, d, e, f⟩ :=
    get_rtsp_address_unset_spec envEmpty (Or.inl rfl) (Or.inr rfl)
  exact ⟨a, b, c true, d false, e, f "medium"⟩

/-- Helper: a lookup stream that raises not-found for the first N attempts
and then returns a truthy value makes the loop terminate with that value,
after exactly N sleeps and N refreshes, for any fuel above N. -/
lemma wait_for_resource_run (N : Nat) :
    ∀ (g : Nat → LookupResult) (v : PyVal),
      (∀ i, i < N → ∃ m, g i = .raiseNotFound m) →
      g N = .ret v → v.truthy = true →
      ∀ fuel, N < fuel →
        wait_for_resource g fuel =
          some { result := .ok v, sleeps := N, refreshes := N } := by
  induction N with
  | zero =>
    intro g v _ hret htr fuel hfuel
    cases fuel with
    | zero => omega
    | succ f => simp [wait_for_resource, hret, htr]
  | succ n ih =>
    intro g v hnf hret htr fuel hfuel
    cases fuel with
    | zero => omega
    | succ f =>
      obtain ⟨m, hm⟩ := hnf 0 (Nat.succ_pos n)
      have hrec := ih (fun j => g (j + 1)) v
        (fun i hi => hnf (i + 1) (by omega)) hret htr f (by omega)
      simp [wait_for_resource, hm, hrec]

/-- Helper: whenever the loop terminates with a returned (not raised)
value, that value is truthy. -/
lemma wait_for_resource_ok_truthy :
    ∀ (fuel : Nat) (g : Nat → LookupResult) (t : WaitOut),
      wait_for_resource g fuel = some t →
      ∀ v, t.result = .ok v → v.truthy = true := by
  intro fuel
  induction fuel with
  | zero => intro g t h; simp [wait_for_resource] at h
  | succ f ih =>
    intro g t h v hv
    rw [wait_for_resource] at h
    cases hg : g 0 with
    | ret u =>
      rw [hg] at h
      by_cases hu : u.truthy
      · simp [hu] at h
        subst h
        simp at hv
        rw [← hv]
        exact hu
      · simp [hu] at h
        exact ih _ _ h v hv
    | raiseNotFound m =>
      rw [hg] at h
      simp only [Option.map_eq_some'] at h
      obtain ⟨t0, ht0, hinc⟩ := h
      have : t.result = t0.result := by rw [← hinc]
      exact ih _ _ ht0 v (this ▸ hv)
    | raiseOther e =>
      rw [hg] at h
      simp at h
      subst h
      simp at hv

/-- Claim C2: a lookup closure that raises `ResourceNotFoundError` N times
and then returns a (truthy) resource makes `wait_for_resource` perform
exactly N retries — sleeping once for the 1-second poll interval and
refreshing once per retry — and return the successful lookup result; a
closure whose first invocation raises any other error class makes it
propagate that error immediately, with zero sleeps and zero refreshes. -/
theorem wait_for_resource_retry_spec (N : Nat) (g gOther : Nat → LookupResult)
    (v : PyVal) (e : Err)
    (hnf : ∀ i, i < N → ∃ m, g i = .raiseNotFound m)
    (hret : g N = .ret v) (htr : v.truthy = true)
    (hother : gOther 0 = .raiseOther e) :
    (∀ fuel, N < fuel →
      wait_for_resource g fuel =
        some { result := .ok v, sleeps := N, refreshes := N }) ∧
    (∀ k, wait_for_resource gOther (k + 1) =
      some { result := .error e, sleeps := 0, refreshes := 0 }) := by
  constructor
  · exact wait_for_resource_run N g v hnf hret htr
  · intro k
    simp [wait_for_resource, hother]

/-- Lookup stream for the witness: not-found twice, then a truthy value. -/
def lookupW : Nat → LookupResult := fun i =>
  if i < 2 then .raiseNotFound "video-store-1 not found"
  else .ret { truthy := true, payload := 7 }

/-- Lookup stream for the witness: a non-not-found error immediately. -/
def lookupErrW : Nat → LookupResult := fun _ =>
  .raiseOther (.rpcError 13)

/-- Concrete instance of `wait_for_resource_retry_spec`: two not-found
failures then success give two sleeps and two refreshes; an immediate
other error propagates with none. -/
theorem wait_for_resource_retry_spec_witness :
    wait_for_resource lookupW 5 =
      some { result := .ok { truthy := true, payload := 7 },
             sleeps := 2, refreshes := 2 } ∧
    wait_for_resource lookupErrW 4 =
      some { result := .error (.rpcError 13), sleeps := 0, refreshes := 0 } := by
  have h := wait_for_resource_retry_spec 2 lookupW lookupErrW
    { truthy := true, payload := 7 } (.rpcError 13)
    (fun i hi => ⟨"video-store-1 not found", by
      interval_cases i <;> rfl⟩)
    rfl rfl rfl
  exact ⟨h.1 5 (by omega), h.2 3⟩

/-- Claim C10: the loop sleeps and refreshes only on a not-found error:
whenever `wait_for_resource` returns a value (rather than propagating an
error), that value is truthy; and when the closure returns a falsy value,
the loop re-invokes it immediately — the run continues on the shifted
stream with no sleep and no refresh added. -/
theorem wait_for_resource_truthy_spec (g : Nat → LookupResult) (fuel : Nat)
    (t : WaitOut) (v : PyVal)
    (h : wait_for_resource g fuel = some t) (hr : t.result = .ok v)
    (g2 : Nat → LookupResult) (w : PyVal)
    (h2 : g2 0 = .ret w) (hw : w.truthy = false) :
    v.truthy = true ∧
    (∀ k, wait_for_resource g2 (k + 1) =
      wait_for_resource (fun j => g2 (j + 1)) k) := by
  constructor
  · exact wait_for_resource_ok_truthy fuel g t h v hr
  · intro k
    simp [wait_for_resource, h2, hw]

/-- Lookup stream for the falsy-value witness: a falsy value first, then a
truthy one. -/
def lookupFalsyW : Nat → LookupResult := fun i =>
  if i = 0 then .ret { truthy := false, payload := 0 }
  else .ret { truthy := true, payload := 9 }

/-- Concrete instance of `wait_for_resource_truthy_spec`: the returned value
of a successful run is truthy, and one falsy step consumes no sleep and no
refresh. -/
theorem wait_for_resource_truthy_spec_witness :
    ({ truthy := true, payload := 7 } : PyVal).truthy = true ∧
    wait_for_resource lookupFalsyW 3 =
      wait_for_resource (fun j => lookupFalsyW (j + 1)) 2 := by
  have h := wait_for_resource_truthy_spec lookupW 5
    { result := .ok { truthy := true, payload := 7 }, sleeps := 2, refreshes := 2 }
    { truthy := true, payload := 7 } (by
      have := wait_for_resource_run 2 lookupW { truthy := true, payload := 7 }
        (fun i hi => ⟨"video-store-1 not found", by interval_cases i <;> rfl⟩)
        rfl rfl 5 (by omega)
      exact this) rfl
    lookupFalsyW { truthy := false, payload := 0 } rfl rfl
  exact ⟨h.1, h.2 2⟩

/-- An oracle in which every external call succeeds: connection, part
fetch, config pushes, machine connection, lookups, discovery and commands
all work. -/
def extW : ExtCalls :=
  { connect_result := .ok (), get_robot_part_result := .ok "part-name",
    update_robot_part_result := fun _ => .ok (),
    connect_machine_result := .ok (), refresh_result := fun _ => .ok (),
    onvif_lookup := fun _ => .ret { truthy := true, payload := 3 },
    discover_result := .ok (),
    vs_lookup := fun _ _ => .ret { truthy := true, payload := 4 },
    do_command_result := fun _ => .ok (), now := 1000, rand := fun _ => 7 }

/-- The session state `main` ends in on the discovery-config step: the
control-plane session is open and was never closed. -/
def mainLeakState : MainState :=
  { opened_viam := true, closed_viam := false,
    opened_machine := false, closed_machine := false }

/-- Claim C6 counterexample: even with a fully configured environment and
every external call succeeding, `main` exits with the
`ValueError` raised while building the ONVIF config, and on that exit path
the control-plane session is open (`opened_viam = true`) but never
released (`closed_viam = false`) — so `main` does not release both
sessions on every exit path. -/
theorem main_leaks_viam_session :
    mainRun envW extW 5 =
      some (.error (.valueError "Unsupported stream type: 2"), mainLeakState) ∧
    mainLeakState.opened_viam = true ∧ mainLeakState.closed_viam = false :=
  ⟨rfl, rfl, rfl⟩

/-- Claim C6 (amended): `main` has no `try`/`finally`; the two `close()`
calls sit only at the end of the straight-line body, so on an error exit
no session is released — and in this revision every run errors out (at the
discovery-config step at the latest, since `config_onvif` always raises),
so for every environment, every oracle of external-call outcomes and every
fuel bound, `main` terminates with an error and neither session has been
closed. -/
theorem main_never_releases (env : Env) (ext : ExtCalls) (fuel : Nat) :
    ∃ e st, mainRun env ext fuel = some (Except.error e, st) ∧
      st.closed_viam = false ∧ st.closed_machine = false := by
  unfold mainRun
  cases hc : ext.connect_result with
  | error e => exact ⟨e, initState, rfl, rfl, rfl⟩
  | ok a =>
    cases hg : ext.get_robot_part_result with
    | error e => exact ⟨e, _, rfl, rfl, rfl⟩
    | ok pn =>
      cases h1 : config_h2645 env true (.pystr "h264") with
      | error e => exact ⟨e, _, rfl, rfl, rfl⟩
      | ok d1 =>
        cases hu0 : ext.update_robot_part_result 0 with
        | error e => exact ⟨e, _, rfl, rfl, rfl⟩
        | ok u0 =>
          cases h2 : config_h2645 env false (.pystr "h264") with
          | error e => exact ⟨e, _, rfl, rfl, rfl⟩
          | ok d2 =>
            cases hu1 : ext.update_robot_part_result 1 with
            | error e => exact ⟨e, _, rfl, rfl, rfl⟩
            | ok u1 =>
              cases h3 : config_h2645 env true (.pystr "h265") with
              | error e => exact ⟨e, _, rfl, rfl, rfl⟩
              | ok d3 =>
                cases hu2 : ext.update_robot_part_result 2 with
                | error e => exact ⟨e, _, rfl, rfl, rfl⟩
                | ok u2 =>
                  exact ⟨.valueError "Unsupported stream type: 2", _, rfl, rfl, rfl⟩
